import Mathlib

/-!
A verification development for the FleetGuard repository: a shallow embedding
of its fleet-telemetry aggregation and alert-latching logic
(`src/app/components/home/page.jsx`, `processFleetData` and the
acknowledgment reducer of `Dashboard`), the telemetry validator
(`pages/api/data.js`) and the command dispatcher (`src/pages/api/siren.js`),
together with theorems settling the specification's claims about them.

Modelling conventions: JavaScript numbers that the code compares, subtracts
and sorts (timestamps in seconds, speeds, millisecond clock values) are
modelled as `ℤ`; GPS coordinates, which are only passed through, as `ℚ`.
A thrown `TypeError` is modelled as `none` / `Except.error`. Locale time
formatting (`toLocaleTimeString`) is abstracted as the raw timestamp — a
fixed deterministic function of it, which is all the claims depend on.
-/

namespace FleetGuard

/-- Driver info as it appears in a payload: either sub-field may be missing. -/
structure DriverInfo where
  id : Option String
  name : Option String
deriving DecidableEq, Repr

/-- A validated GPS position: `lat`/`lng` hold finite numbers. -/
structure Gps where
  lat : ℚ
  lng : ℚ
deriving DecidableEq, Repr

/-- The `alert` field of a telemetry record: a boolean, a string label, or
absent (any other JavaScript value compares unequal to the three literals the
code tests, exactly like `absent`). -/
inductive AlertVal where
  | boolV (b : Bool)
  | strV (s : String)
  | absent
deriving DecidableEq, Repr

/-- The truthy-alert test of home/page.jsx lines 93-96 and 112-115:
`record.alert === true || record.alert === "Sleeping" || record.alert === "true"`. -/
def isAlertTruthy : AlertVal → Bool
  | .boolV true => true
  | .strV s => s == "Sleeping" || s == "true"
  | _ => false

/-- The narrower test used for `totalHistoricalAlerts` (lines 140-142) and the
history chart entries (line 155): `r.alert === true || r.alert === "Sleeping"`.
Unlike `isAlertTruthy` it does not accept the string `"true"`. -/
def isHistAlert : AlertVal → Bool
  | .boolV true => true
  | .strV s => s == "Sleeping"
  | _ => false

/-- A telemetry record as consumed by `processFleetData`. `driver` is `none`
when the stored record has no driver object. -/
structure Record where
  vehicleId : String
  driver : Option DriverInfo
  speed : ℤ
  gps : Gps
  alert : AlertVal
  timestamp : ℤ
deriving DecidableEq, Repr

/-- The comparator `(a, b) => a.timestamp - b.timestamp` of line 80 orders
records ascending by timestamp. -/
def tsLe (a b : Record) : Prop := a.timestamp ≤ b.timestamp

instance : DecidableRel tsLe := fun a b => Int.decLe a.timestamp b.timestamp

/-- `[...rawData].sort((a, b) => a.timestamp - b.timestamp)` (line 80).
JavaScript `Array.prototype.sort` is a stable sort; `List.insertionSort` is a
stable sort for the same key, so it computes the identical list. -/
def sortRecords (l : List Record) : List Record := List.insertionSort tsLe l

/-- `sortedData[sortedData.length - 1].timestamp` (line 83). The call site
only reaches this on a nonempty list, so the `getD 0` default is never read. -/
def latestSystemTimestamp (sorted : List Record) : ℤ :=
  ((sorted.getLast?).map Record.timestamp).getD 0

/-- One iteration of the first pass (lines 92-100): when the record's alert is
truthy, set `lastAlertTimes[record.vehicleId] = record.timestamp`. -/
def lastAlertStep (acc : String → Option ℤ) (r : Record) : String → Option ℤ :=
  if isAlertTruthy r.alert then
    fun k => if k = r.vehicleId then some r.timestamp else acc k
  else acc

/-- The whole first pass over the sorted records; the plain object
`lastAlertTimes` is modelled as a partial map. -/
def lastAlertTimes (l : List Record) : String → Option ℤ :=
  l.foldl lastAlertStep (fun _ => none)

/-- `record.driver.id.replace(/\D/g, "")` (line 124): keep only the digits. -/
def digitsOnly (s : String) : String := String.mk (s.toList.filter Char.isDigit)

/-- `.padEnd(8, "0")` (line 125): pad on the right with `'0'` to length 8. -/
def padEnd8 (s : String) : String := s ++ String.mk (List.replicate (8 - s.length) '0')

/-- `.slice(0, 8)` (line 126): the first 8 characters. -/
def slice8 (s : String) : String := String.mk (s.toList.take 8)

/-- The phone number synthesized at lines 123-126. -/
def driverPhone (id : String) : String := "+880 17" ++ slice8 (padEnd8 (digitsOnly id))

/-- The per-vehicle state stored into `vehicleMap` (lines 118-127): the
record's own fields spread together with the derived fields. -/
structure VehicleState where
  vehicleId : String
  driver : Option DriverInfo
  speed : ℤ
  gps : Gps
  alert : AlertVal
  timestamp : ℤ
  formattedTime : ℤ
  isDrowsy : Bool
  secondsSinceAlert : ℤ
  driverPhone : String
deriving DecidableEq, Repr

/-- One iteration of the second pass (lines 103-128) on record `r`:
`lastAlert = lastAlertTimes[record.vehicleId] || 0`, the latch test, and the
object stored by `vehicleMap.set`. Reading `record.driver.id` throws a
`TypeError` when `driver` is absent or has no `id`; the throw is `none`. -/
def buildVehicleState (tMax : ℤ) (lastAlerts : String → Option ℤ) (r : Record) :
    Option VehicleState :=
  (r.driver.bind DriverInfo.id).map fun did =>
    let lastAlert : ℤ := (lastAlerts r.vehicleId).getD 0
    let secondsSinceAlert : ℤ := tMax - lastAlert
    { vehicleId := r.vehicleId
      driver := r.driver
      speed := r.speed
      gps := r.gps
      alert := r.alert
      timestamp := r.timestamp
      formattedTime := r.timestamp
      isDrowsy := isAlertTruthy r.alert || decide (secondsSinceAlert < 300)
      secondsSinceAlert := secondsSinceAlert
      driverPhone := driverPhone did }

/-- `vehicleMap.set(key, value)` on a JavaScript `Map`: replace in place when
the key is present (keeping its position), append otherwise. -/
def mapSet (m : List (String × VehicleState)) (k : String) (v : VehicleState) :
    List (String × VehicleState) :=
  if m.any (fun p => p.1 == k) then
    m.map (fun p => if p.1 == k then (k, v) else p)
  else m ++ [(k, v)]

/-- One iteration of the second pass: build the state for `r` and store it
under its vehicle id; `none` when the iteration throws. -/
def vehicleMapStep (tMax : ℤ) (lastAlerts : String → Option ℤ)
    (m : List (String × VehicleState)) (r : Record) :
    Option (List (String × VehicleState)) :=
  (buildVehicleState tMax lastAlerts r).map fun st => mapSet m r.vehicleId st

/-- The whole second pass, `sortedData.forEach(...)` over lines 103-128;
`none` when some iteration throws. -/
def buildVehicleMap (tMax : ℤ) (lastAlerts : String → Option ℤ) (l : List Record) :
    Option (List (String × VehicleState)) :=
  l.foldlM (vehicleMapStep tMax lastAlerts) []

/-- The `stats` object built at lines 133-145. -/
structure FleetStats where
  totalVehicles : ℕ
  drowsinessCount : ℕ
  avgSpeed : ℤ
  totalHistoricalAlerts : ℕ
deriving DecidableEq, Repr

/-- One entry of `history` (lines 147-157); the locale time label is
abstracted as the raw timestamp. -/
structure HistoryEntry where
  time : ℤ
  speed : ℤ
  isAlert : ℕ
deriving DecidableEq, Repr

/-- The value returned by `processFleetData`. `stats = none` models the empty
object `{}` of the empty-input early return (line 77): no stats field exists
on that object. -/
structure FleetOutput where
  stats : Option FleetStats
  uniqueVehicles : List VehicleState
  history : List HistoryEntry
deriving DecidableEq, Repr

/-- `(totalSpeed / totalVehicles).toFixed(0)` for an integer total `a` and a
positive count `n`: round to the nearest integer, a tie rounded up (the
ECMAScript `toFixed` picks the larger candidate on a tie). Written with
integer floor division so the kernel can evaluate it; `toFixed0_eq_round`
identifies it with `round` of the exact mean. -/
def toFixed0 (a : ℤ) (n : ℕ) : ℤ := (2 * a + n) / (2 * (n : ℤ))

/-- `.slice(-n)`: the last `n` elements (the whole list when it is shorter). -/
def takeLast {α : Type} (n : ℕ) (l : List α) : List α := l.drop (l.length - n)

/-- Lines 80-158 applied to the already-sorted record list. `v.speed || 0`
coincides with `v.speed` on integer speeds (`0 || 0` is `0`). -/
def processSorted (sortedData : List Record) : Option FleetOutput :=
  let tMax := latestSystemTimestamp sortedData
  let lastAlerts := lastAlertTimes sortedData
  (buildVehicleMap tMax lastAlerts sortedData).map fun vehicleMap =>
    let uniqueVehicles := vehicleMap.map Prod.snd
    let totalVehicles := uniqueVehicles.length
    let drowsinessCount := (uniqueVehicles.filter VehicleState.isDrowsy).length
    let totalSpeed := (uniqueVehicles.map VehicleState.speed).sum
    let avgSpeed : ℤ := if 0 < totalVehicles then toFixed0 totalSpeed totalVehicles else 0
    let totalHistoricalAlerts := (sortedData.filter fun r => isHistAlert r.alert).length
    let history := takeLast 30 (sortedData.map fun d =>
      { time := d.timestamp
        speed := d.speed
        isAlert := if isHistAlert d.alert then 1 else 0 })
    { stats := some
        { totalVehicles := totalVehicles
          drowsinessCount := drowsinessCount
          avgSpeed := avgSpeed
          totalHistoricalAlerts := totalHistoricalAlerts }
      uniqueVehicles := uniqueVehicles
      history := history }

/-- `processFleetData` (home/page.jsx lines 75-159). `none` models a thrown
`TypeError`; an empty input takes the early return of lines 76-77. -/
def processFleetData (rawData : List Record) : Option FleetOutput :=
  if rawData.isEmpty then some { stats := none, uniqueVehicles := [], history := [] }
  else processSorted (sortRecords rawData)

/-- `ACK_DURATION`: five minutes of `Date.now()` milliseconds (line 228). -/
def ackDurationMs : ℤ := 5 * 60 * 1000

/-- The `ACKNOWLEDGE` action of the reducer (lines 226-228):
`{...state, [action.vehicleId]: Date.now() + 5 * 60 * 1000}`. -/
def acknowledge (st : String → Option ℤ) (v : String) (now : ℤ) : String → Option ℤ :=
  fun w => if w = v then some (now + ackDurationMs) else st w

/-- The `CLEANUP` action (lines 229-233): keep the entries whose
`expiry > Date.now()`. -/
def ackCleanup (st : String → Option ℤ) (now : ℤ) : String → Option ℤ :=
  fun w =>
    match st w with
    | some e => if now < e then some e else none
    | none => none

/-- How the dashboard reads acknowledgment (lines 542, 544, 559, 592): the
bare truthiness test `acknowledged[v.vehicleId]` — presence of a nonzero
entry. The current time is not consulted by this read. -/
def isAckedUI (st : String → Option ℤ) (v : String) : Bool :=
  match st v with
  | some e => decide (e ≠ 0)
  | none => false

/-- Modelled from the spec: `isAcknowledged(vehicleId, now)` is "true iff an
entry exists with expiry > now" (spec §4.4). This definition follows the
spec's words; the code's actual read is `isAckedUI`, which ignores `now`. -/
def isAcknowledgedSpec (st : String → Option ℤ) (v : String) (now : ℤ) : Bool :=
  match st v with
  | some e => decide (now < e)
  | none => false

/-- The body of a POST to `/api/siren`; the client may send a `timestamp`,
which the handler never reads. -/
structure SirenBody where
  vehicleId : Option String
  command : Option String
  driver : Option DriverInfo
  timestamp : Option ℤ
deriving DecidableEq, Repr

/-- `allowedCommands` (siren.js line 19). -/
def allowedCommands : List String := ["KILL_ENGINE", "TRIGGER_ALARM", "RESET"]

/-- The payload stored in `siren_commands` (siren.js lines 30-36). -/
structure CommandRecord where
  vehicleId : String
  command : String
  driver : Option DriverInfo
  timestamp : ℤ
  status : String
deriving DecidableEq, Repr

/-- The two 400 rejections of the siren handler. -/
inductive SirenError where
  | missingFields
  | invalidCommand
deriving DecidableEq, Repr

/-- The POST branch of `pages/api/siren.js` (lines 10-44): reject when
`!vehicleId || !command` (absent or empty string), reject when the command is
not in the allow-list, otherwise build the record with the server clock and
`status: "PENDING"` and store it. -/
def sirenHandler (body : SirenBody) (serverNow : ℤ) : Except SirenError CommandRecord :=
  match body.vehicleId, body.command with
  | some vid, some cmd =>
    if vid = "" then Except.error SirenError.missingFields
    else if cmd = "" then Except.error SirenError.missingFields
    else if allowedCommands.contains cmd then
      Except.ok
        { vehicleId := vid
          command := cmd
          driver := body.driver
          timestamp := serverNow
          status := "PENDING" }
    else Except.error SirenError.invalidCommand
  | _, _ => Except.error SirenError.missingFields

/-- A GPS field of an inbound telemetry payload: whether `Number(gps.lat)`
parses to a finite number, and which one. -/
inductive NumVal where
  | fin (q : ℚ)
  | nonfinite
deriving DecidableEq, Repr

/-- The raw `gps` object of a payload, before validation. -/
structure GpsRaw where
  lat : NumVal
  lng : NumVal
deriving DecidableEq, Repr

/-- The `timestamp` field of an inbound payload, as a JavaScript value. -/
inductive TsVal where
  | undef
  | nullV
  | numV (t : ℤ)
  | strV (s : String)
deriving DecidableEq, Repr

/-- JavaScript truthiness of the timestamp value: the number `0`, `null`,
the empty string and `undefined` are falsy. -/
def tsTruthy : TsVal → Bool
  | .numV t => decide (t ≠ 0)
  | .strV s => decide (s ≠ "")
  | _ => false

/-- An inbound telemetry payload (`req.body` of `pages/api/data.js`).
`speed = none` models `typeof data.speed === "undefined"`. -/
structure Payload where
  vehicleId : Option String
  driver : Option DriverInfo
  speed : Option ℤ
  gps : Option GpsRaw
  alert : AlertVal
  timestamp : TsVal
deriving DecidableEq, Repr

/-- The record the data handler inserts: `gps` replaced by the parsed numbers,
`timestamp` the original value when truthy and the ingestion time otherwise. -/
structure StoredRecord where
  vehicleId : String
  driver : Option DriverInfo
  speed : ℤ
  gps : Gps
  alert : AlertVal
  timestamp : TsVal
deriving DecidableEq, Repr

/-- The two 400 rejections of the data handler. -/
inductive DataError where
  | missingFields
  | invalidGps
deriving DecidableEq, Repr

/-- JavaScript truthiness of an optional string: absent and `""` are falsy. -/
def truthyStr : Option String → Bool
  | some s => decide (s ≠ "")
  | none => false

/-- The POST branch of `pages/api/data.js` (lines 8-50): reject
`MissingField` when `!data.vehicleId`, `typeof data.speed === "undefined"` or
`!data.gps`; reject `InvalidCoordinate` when `Number(gps.lat)` or
`Number(gps.lng)` is not finite; fill a falsy `timestamp` with the ingestion
time `now`; accept everything else (a missing driver only logs a warning). -/
def dataHandler (p : Payload) (now : ℤ) : Except DataError StoredRecord :=
  match p.vehicleId, p.speed, p.gps with
  | some vid, some sp, some g =>
    if vid = "" then Except.error DataError.missingFields
    else
      match g.lat, g.lng with
      | NumVal.fin la, NumVal.fin ln =>
        Except.ok
          { vehicleId := vid
            driver := p.driver
            speed := sp
            gps := { lat := la, lng := ln }
            alert := p.alert
            timestamp := if tsTruthy p.timestamp then p.timestamp else TsVal.numV now }
      | _, _ => Except.error DataError.invalidGps
  | _, _, _ => Except.error DataError.missingFields

/-! ## Helper lemmas about the embedding -/

instance : IsTotal Record tsLe :=
  ⟨fun a b => Int.le_total a.timestamp b.timestamp⟩

instance : IsTrans Record tsLe :=
  ⟨fun _ _ _ h₁ h₂ => Int.le_trans h₁ h₂⟩

/-- Two sorted lists that are permutations of each other and have pairwise
distinct timestamps are equal. -/
theorem sorted_perm_eq_of_distinct :
    ∀ {l₁ l₂ : List Record}, l₁.Perm l₂ → l₁.Pairwise tsLe → l₂.Pairwise tsLe →
      l₁.Pairwise (fun a b => a.timestamp ≠ b.timestamp) → l₁ = l₂ := by
  intro l₁
  induction l₁ with
  | nil =>
    intro l₂ hp _ _ _
    exact (List.Perm.eq_nil hp.symm).symm
  | cons a t₁ ih =>
    intro l₂ hp hs₁ hs₂ hd
    cases l₂ with
    | nil => exact absurd (List.Perm.eq_nil hp) (by simp)
    | cons b t₂ =>
      have hb : b ∈ a :: t₁ := hp.symm.subset (List.mem_cons_self b t₂)
      rcases List.mem_cons.1 hb with hba | hbt
      · subst hba
        have ht : t₁.Perm t₂ := hp.cons_inv
        rw [ih ht hs₁.of_cons hs₂.of_cons hd.of_cons]
      · exfalso
        have h1 : tsLe a b := List.rel_of_pairwise_cons hs₁ hbt
        have hne : a.timestamp ≠ b.timestamp := List.rel_of_pairwise_cons hd hbt
        have ha : a ∈ b :: t₂ := hp.subset (List.mem_cons_self a t₁)
        rcases List.mem_cons.1 ha with hab | hat
        · exact hne (by rw [hab])
        · exact hne (le_antisymm h1 (List.rel_of_pairwise_cons hs₂ hat))

/-- On inputs with pairwise distinct timestamps, the sort is a function of the
multiset of records only. -/
theorem sortRecords_eq_of_perm {l₁ l₂ : List Record} (hp : l₁.Perm l₂)
    (hd : l₁.Pairwise fun a b => a.timestamp ≠ b.timestamp) :
    sortRecords l₁ = sortRecords l₂ := by
  have hps : (sortRecords l₁).Perm (sortRecords l₂) :=
    ((List.perm_insertionSort tsLe l₁).trans hp).trans (List.perm_insertionSort tsLe l₂).symm
  have hd₁ : (sortRecords l₁).Pairwise (fun a b => a.timestamp ≠ b.timestamp) :=
    (List.Perm.pairwise_iff (fun hxy => Ne.symm hxy) (List.perm_insertionSort tsLe l₁)).2 hd
  exact sorted_perm_eq_of_distinct hps (List.sorted_insertionSort tsLe l₁)
    (List.sorted_insertionSort tsLe l₂) hd₁

/-- A fold of `lastAlertStep` leaves the accumulator untouched at a vehicle id
none of whose records in the list has a truthy alert. -/
theorem foldl_lastAlertStep_eq (v : String) :
    ∀ (l : List Record) (acc : String → Option ℤ),
      (∀ r ∈ l, r.vehicleId = v → isAlertTruthy r.alert = false) →
      l.foldl lastAlertStep acc v = acc v := by
  intro l
  induction l with
  | nil => intro acc _; rfl
  | cons r t ih =>
    intro acc hno
    rw [List.foldl_cons, ih _ (fun r' hr' => hno r' (List.mem_cons_of_mem r hr'))]
    unfold lastAlertStep
    by_cases ht : isAlertTruthy r.alert = true
    · rw [if_pos ht]
      have hrv : ¬ (v = r.vehicleId) := fun hv => by
        rw [hno r (List.mem_cons_self r t) hv.symm] at ht
        exact Bool.false_ne_true ht
      rw [if_neg hrv]
    · rw [if_neg ht]

/-- A vehicle with no truthy-alert record in the list is absent from
`lastAlertTimes`. -/
theorem lastAlertTimes_eq_none {l : List Record} {v : String}
    (hno : ∀ r ∈ l, r.vehicleId = v → isAlertTruthy r.alert = false) :
    lastAlertTimes l v = none :=
  foldl_lastAlertStep_eq v l (fun _ => none) hno

/-- An element of `mapSet m k v` is either the new pair or an old element. -/
theorem mapSet_mem {m : List (String × VehicleState)} {k : String} {v : VehicleState}
    {p : String × VehicleState} (hp : p ∈ mapSet m k v) : p = (k, v) ∨ p ∈ m := by
  unfold mapSet at hp
  by_cases hany : m.any (fun q => q.1 == k) = true
  · rw [if_pos hany] at hp
    obtain ⟨q, hq, hfq⟩ := List.mem_map.1 hp
    by_cases hqk : (q.1 == k) = true
    · rw [if_pos hqk] at hfq
      exact Or.inl hfq.symm
    · rw [if_neg hqk] at hfq
      exact Or.inr (hfq ▸ hq)
  · rw [if_neg hany] at hp
    rcases List.mem_append.1 hp with h | h
    · exact Or.inr h
    · exact Or.inl (by simpa using h)

/-- `mapSet` never shrinks the map. -/
theorem mapSet_length (m : List (String × VehicleState)) (k : String) (v : VehicleState) :
    m.length ≤ (mapSet m k v).length := by
  unfold mapSet
  split
  · rw [List.length_map]
  · rw [List.length_append]
    simp

/-- Every element produced by folding `vehicleMapStep` over a list comes from
the initial map or from building the state of some record of the list. -/
theorem foldlM_vehicleMapStep_mem (tMax : ℤ) (lat : String → Option ℤ) :
    ∀ (l : List Record) (m₀ m : List (String × VehicleState)),
      l.foldlM (vehicleMapStep tMax lat) m₀ = some m →
      ∀ p ∈ m, p ∈ m₀ ∨ ∃ r ∈ l, buildVehicleState tMax lat r = some p.2 := by
  intro l
  induction l with
  | nil =>
    intro m₀ m h p hp
    rw [List.foldlM_nil] at h
    injection h with h
    subst h
    exact Or.inl hp
  | cons r t ih =>
    intro m₀ m h p hp
    rw [List.foldlM_cons] at h
    rcases Option.bind_eq_some.1 h with ⟨m₁, h₁, h₂⟩
    rcases Option.map_eq_some'.1 h₁ with ⟨st, hbs, hm₁⟩
    rcases ih m₁ m h₂ p hp with hin | ⟨r', hr', hbs'⟩
    · rcases mapSet_mem (hm₁ ▸ hin) with hpkv | hin₀
      · subst hpkv
        exact Or.inr ⟨r, List.mem_cons_self r t, hbs⟩
      · exact Or.inl hin₀
    · exact Or.inr ⟨r', List.mem_cons_of_mem r hr', hbs'⟩

/-- Elements of the built vehicle map come from records of the list. -/
theorem buildVehicleMap_mem {tMax : ℤ} {lat : String → Option ℤ} {l : List Record}
    {m : List (String × VehicleState)} (h : buildVehicleMap tMax lat l = some m)
    {p : String × VehicleState} (hp : p ∈ m) :
    ∃ r ∈ l, buildVehicleState tMax lat r = some p.2 := by
  rcases foldlM_vehicleMapStep_mem tMax lat l [] m h p hp with h0 | hr
  · exact absurd h0 (List.not_mem_nil p)
  · exact hr

/-- Folding `vehicleMapStep` never shrinks the map. -/
theorem foldlM_vehicleMapStep_length (tMax : ℤ) (lat : String → Option ℤ) :
    ∀ (l : List Record) (m₀ m : List (String × VehicleState)),
      l.foldlM (vehicleMapStep tMax lat) m₀ = some m → m₀.length ≤ m.length := by
  intro l
  induction l with
  | nil =>
    intro m₀ m h
    rw [List.foldlM_nil] at h
    injection h with h
    subst h
    exact Nat.le_refl _
  | cons r t ih =>
    intro m₀ m h
    rw [List.foldlM_cons] at h
    rcases Option.bind_eq_some.1 h with ⟨m₁, h₁, h₂⟩
    rcases Option.map_eq_some'.1 h₁ with ⟨st, _, hm₁⟩
    calc m₀.length ≤ (mapSet m₀ r.vehicleId st).length := mapSet_length m₀ r.vehicleId st
      _ = m₁.length := by rw [hm₁]
      _ ≤ m.length := ih m₁ m h₂

/-- The vehicle map of a nonempty record list is nonempty. -/
theorem buildVehicleMap_ne_nil {tMax : ℤ} {lat : String → Option ℤ} {l : List Record}
    {m : List (String × VehicleState)} (hl : l ≠ []) (h : buildVehicleMap tMax lat l = some m) :
    m ≠ [] := by
  match l, hl with
  | r :: t, _ =>
    rw [buildVehicleMap, List.foldlM_cons] at h
    rcases Option.bind_eq_some.1 h with ⟨m₁, h₁, h₂⟩
    rcases Option.map_eq_some'.1 h₁ with ⟨st, _, hm₁⟩
    have hm₁len : m₁.length = 1 := by
      rw [← hm₁]
      rfl
    have hlen : m₁.length ≤ m.length := foldlM_vehicleMapStep_length tMax lat t m₁ m h₂
    intro hnil
    rw [hnil] at hlen
    rw [hm₁len] at hlen
    exact Nat.not_succ_le_zero 0 hlen

/-- The fields of a successfully built vehicle state, in terms of its record. -/
theorem buildVehicleState_eq {tMax : ℤ} {lat : String → Option ℤ} {r : Record}
    {st : VehicleState} (h : buildVehicleState tMax lat r = some st) :
    st.vehicleId = r.vehicleId ∧ st.alert = r.alert ∧
    st.secondsSinceAlert = tMax - (lat r.vehicleId).getD 0 ∧
    st.isDrowsy = (isAlertTruthy r.alert || decide (tMax - (lat r.vehicleId).getD 0 < 300)) := by
  rcases Option.map_eq_some'.1 h with ⟨did, _, hst⟩
  subst hst
  exact ⟨rfl, rfl, rfl, rfl⟩

/-- Every state in `uniqueVehicles` was built by `buildVehicleState` from some
record of the input. -/
theorem mem_uniqueVehicles {l : List Record} {out : FleetOutput} {st : VehicleState}
    (h : processFleetData l = some out) (hst : st ∈ out.uniqueVehicles) :
    ∃ r ∈ l, buildVehicleState (latestSystemTimestamp (sortRecords l))
      (lastAlertTimes (sortRecords l)) r = some st := by
  cases l with
  | nil =>
    rw [processFleetData, if_pos (by rfl)] at h
    injection h with h
    subst h
    exact absurd hst (List.not_mem_nil st)
  | cons a t =>
    rw [processFleetData, if_neg (by simp)] at h
    simp only [processSorted] at h
    rcases Option.map_eq_some'.1 h with ⟨m, hm, hF⟩
    subst hF
    simp only [List.mem_map] at hst
    rcases hst with ⟨p, hp, hps⟩
    rcases buildVehicleMap_mem hm hp with ⟨r, hr, hbs⟩
    exact ⟨r, (List.perm_insertionSort tsLe (a :: t)).subset hr, hps ▸ hbs⟩

/-- `toFixed0` computes the rounded exact mean: rounding `a / n` to the
nearest integer with ties up equals the floor of `(2a + n) / 2n`. -/
theorem toFixed0_eq_round (a : ℤ) (n : ℕ) (hn : 0 < n) :
    toFixed0 a n = round ((a : ℚ) / (n : ℚ)) := by
  have hn' : ((n : ℚ)) ≠ 0 := Nat.cast_ne_zero.2 hn.ne'
  rw [round_eq]
  have key : (a : ℚ) / (n : ℚ) + 1 / 2 = (((2 * a + (n : ℤ) : ℤ) : ℚ)) / (((2 * n : ℕ) : ℚ)) := by
    push_cast
    field_simp
    ring
  rw [key, Rat.floor_intCast_div_natCast]
  unfold toFixed0
  push_cast
  ring_nf

/-- A complete driver object, used by the concrete test inputs below. -/
def dFull : Option DriverInfo := some { id := some "D1", name := some "Alice" }

/-- Claim C1, counterexample: a batch whose single vehicle never has a truthy
alert and whose maximum timestamp is 100 < 300. The code computes
`lastAlert = lastAlertTimes[v] || 0 = 0`, so `secondsSinceAlert = 100 < 300`
and the vehicle is latched drowsy — the claim says `isDrowsy` must be false
for every `T_max`, treating an absent last-alert time as infinitely old. -/
theorem c1_counterexample :
    (processFleetData
        [{ vehicleId := "V1", driver := dFull, speed := 10, gps := { lat := 1, lng := 2 },
           alert := AlertVal.boolV false, timestamp := 100 }]).map
      (fun o => o.uniqueVehicles.map VehicleState.isDrowsy) = some [true] := by
  decide

/-- Claim C1, amended: for every batch and every vehicle appearing in it with
no truthy-alert record, the latched `isDrowsy` is false provided the batch's
maximum timestamp is at least 300 — an absent last-alert time is stored as
time 0, so it behaves as infinitely old only when `T_max ≥ 300` (for
`T_max < 300` the vehicle is latched, see the counterexample). -/
theorem c1_amended {l : List Record} {out : FleetOutput} {st : VehicleState}
    (h : processFleetData l = some out) (hst : st ∈ out.uniqueVehicles)
    (hno : ∀ r ∈ l, r.vehicleId = st.vehicleId → isAlertTruthy r.alert = false)
    (hT : 300 ≤ latestSystemTimestamp (sortRecords l)) :
    st.isDrowsy = false := by
  obtain ⟨r, hr, hbs⟩ := mem_uniqueVehicles h hst
  obtain ⟨hvid, _, _, hdrowsy⟩ := buildVehicleState_eq hbs
  have hnone : lastAlertTimes (sortRecords l) r.vehicleId = none := by
    apply lastAlertTimes_eq_none
    intro r' hr' hv
    refine hno r' ((List.perm_insertionSort tsLe l).subset hr') ?_
    rw [hv]
    exact hvid.symm
  have hra : isAlertTruthy r.alert = false := hno r hr hvid.symm
  rw [hdrowsy, hra, hnone]
  simp only [Option.getD_none, sub_zero, Bool.false_or]
  exact decide_eq_false (not_lt.2 hT)

/-- The record of the C1 witness batch: one vehicle, no alerts, `T_max` 1000. -/
def c1wrec : Record :=
  { vehicleId := "V1", driver := dFull, speed := 10, gps := { lat := 1, lng := 2 },
    alert := AlertVal.boolV false, timestamp := 1000 }

/-- The vehicle state the code computes for `c1wrec`. -/
def c1wst : VehicleState :=
  { vehicleId := "V1", driver := dFull, speed := 10, gps := { lat := 1, lng := 2 },
    alert := AlertVal.boolV false, timestamp := 1000, formattedTime := 1000,
    isDrowsy := false, secondsSinceAlert := 1000, driverPhone := "+880 1710000000" }

/-- The full output the code computes for the C1 witness batch. -/
def c1wout : FleetOutput :=
  { stats := some
      { totalVehicles := 1, drowsinessCount := 0, avgSpeed := 10, totalHistoricalAlerts := 0 },
    uniqueVehicles := [c1wst],
    history := [{ time := 1000, speed := 10, isAlert := 0 }] }

/-- Witness for the amended C1 at a concrete batch with `T_max = 1000 ≥ 300`. -/
theorem c1_witness : c1wst.isDrowsy = false :=
  @c1_amended [c1wrec] c1wout c1wst (by decide) (by decide) (by decide) (by decide)

/-- Claim C2, counterexample: acknowledge `"V1"` at time 0 (expiry 300000 ms);
with no intervening sweep, the dashboard's read — a bare presence test that
never consults the clock — still returns true at time `ACK_DURATION + 1`,
while the spec's expiry-comparing read returns false there. -/
theorem c2_counterexample :
    isAckedUI (acknowledge (fun _ => none) "V1" 0) "V1" = true ∧
    isAcknowledgedSpec (acknowledge (fun _ => none) "V1" 0) "V1" (ackDurationMs + 1) = false := by
  constructor <;> decide

/-- Claim C2, amended: `acknowledge(v)` at `t` stores expiry `t + ACK_DURATION`
and the read then returns true; but the read checks only presence of a
(nonzero) entry and ignores `now`, so expiry is enforced solely by the sweep:
after a sweep at `now ≥ t + ACK_DURATION` the read is false, after a sweep at
`now < t + ACK_DURATION` (and, by the first part, with no sweep at all) it
stays true. -/
theorem c2_amended (st : String → Option ℤ) (v : String) (t now : ℤ) (ht : 0 ≤ t) :
    isAckedUI (acknowledge st v t) v = true ∧
    (t + ackDurationMs ≤ now → isAckedUI (ackCleanup (acknowledge st v t) now) v = false) ∧
    (now < t + ackDurationMs → isAckedUI (ackCleanup (acknowledge st v t) now) v = true) := by
  have he : acknowledge st v t v = some (t + ackDurationMs) := by
    unfold acknowledge
    rw [if_pos rfl]
  have hpos : t + ackDurationMs ≠ 0 := by
    unfold ackDurationMs
    omega
  have hc : ackCleanup (acknowledge st v t) now v =
      if now < t + ackDurationMs then some (t + ackDurationMs) else none := by
    unfold ackCleanup
    rw [he]
  refine ⟨?_, ?_, ?_⟩
  · unfold isAckedUI
    rw [he]
    exact decide_eq_true hpos
  · intro hle
    unfold isAckedUI
    rw [hc, if_neg (by omega)]
  · intro hlt
    unfold isAckedUI
    rw [hc, if_pos hlt]
    exact decide_eq_true hpos

/-- Witness for the amended C2: acknowledge `"V2"` at time 10; the read is
true, and after a sweep at exactly the expiry instant it is false. -/
theorem c2_witness :
    isAckedUI (acknowledge (fun _ => none) "V2" 10) "V2" = true ∧
    isAckedUI (ackCleanup (acknowledge (fun _ => none) "V2" 10) (10 + ackDurationMs)) "V2"
      = false :=
  ⟨(c2_amended (fun _ => none) "V2" 10 0 (by omega)).1,
   (c2_amended (fun _ => none) "V2" 10 (10 + ackDurationMs) (by omega)).2.1 (le_refl _)⟩

/-- Claim C3, counterexample: two records of the same vehicle with equal
timestamps and different speeds. Swapping them changes which one the stable
sort leaves last, hence which speed `perVehicle` reports — the outputs
differ, so the aggregation is not order-independent at timestamp ties. -/
theorem c3_counterexample :
    processFleetData
        [{ vehicleId := "V1", driver := dFull, speed := 10, gps := { lat := 1, lng := 2 },
           alert := AlertVal.boolV false, timestamp := 500 },
         { vehicleId := "V1", driver := dFull, speed := 20, gps := { lat := 1, lng := 2 },
           alert := AlertVal.boolV false, timestamp := 500 }] ≠
      processFleetData
        [{ vehicleId := "V1", driver := dFull, speed := 20, gps := { lat := 1, lng := 2 },
           alert := AlertVal.boolV false, timestamp := 500 },
         { vehicleId := "V1", driver := dFull, speed := 10, gps := { lat := 1, lng := 2 },
           alert := AlertVal.boolV false, timestamp := 500 }] := by
  decide

/-- Claim C3, amended: the aggregation is order-independent for every
permutation of the input whose records carry pairwise distinct timestamps;
with equal timestamps on the same vehicle the outputs can differ (see the
counterexample), because the internal sort is stable in arrival order, not a
total order on record contents. -/
theorem c3_amended {l₁ l₂ : List Record} (hp : l₁.Perm l₂)
    (hd : l₁.Pairwise fun a b => a.timestamp ≠ b.timestamp) :
    processFleetData l₁ = processFleetData l₂ := by
  have he : l₁.isEmpty = l₂.isEmpty := by
    have hlen := hp.length_eq
    cases l₁ <;> cases l₂ <;> simp_all
  unfold processFleetData
  rw [he, sortRecords_eq_of_perm hp hd]

/-- First record of the C3 witness batch. -/
def c3wrecA : Record :=
  { vehicleId := "V1", driver := dFull, speed := 10, gps := { lat := 1, lng := 2 },
    alert := AlertVal.boolV true, timestamp := 100 }

/-- Second record of the C3 witness batch, with a distinct timestamp. -/
def c3wrecB : Record :=
  { vehicleId := "V2", driver := dFull, speed := 20, gps := { lat := 3, lng := 4 },
    alert := AlertVal.boolV false, timestamp := 200 }

/-- Witness for the amended C3 at a concrete two-record permutation. -/
theorem c3_witness :
    processFleetData [c3wrecA, c3wrecB] = processFleetData [c3wrecB, c3wrecA] :=
  c3_amended (by decide) (by decide)

/-- Claim C4 (code bug): the validator accepts a record whose `driver` is
absent — it only logs a degraded-data warning — but the downstream
aggregation dereferences `record.driver.id` unconditionally (line 123) and
throws a `TypeError`, so it is not total on validator-accepted records. -/
theorem c4_code_bug :
    dataHandler
        { vehicleId := some "V1", driver := none, speed := some 10,
          gps := some { lat := NumVal.fin 1, lng := NumVal.fin 2 },
          alert := AlertVal.boolV false, timestamp := TsVal.numV 1000 } 2000
      = Except.ok
          { vehicleId := "V1", driver := none, speed := 10, gps := { lat := 1, lng := 2 },
            alert := AlertVal.boolV false, timestamp := TsVal.numV 1000 }
    ∧ processFleetData
        [{ vehicleId := "V1", driver := none, speed := 10, gps := { lat := 1, lng := 2 },
           alert := AlertVal.boolV false, timestamp := 1000 }] = none :=
  ⟨rfl, by decide⟩

/-- Claim C5, counterexample: a payload carrying `vehicleId` and a finite
`gps` but no `speed` is rejected with the missing-fields error — the
validator also requires `typeof data.speed !== "undefined"`, which the claim
omits from its "exactly when" condition. -/
theorem c5_counterexample :
    dataHandler
        { vehicleId := some "V1", driver := dFull, speed := none,
          gps := some { lat := NumVal.fin 1, lng := NumVal.fin 2 },
          alert := AlertVal.absent, timestamp := TsVal.undef } 0
      = Except.error DataError.missingFields := rfl

/-- Claim C5, amended: the validator rejects with `MissingField` exactly when
`vehicleId` is absent or empty, `speed` is undefined, or `gps` is absent; a
payload with a truthy `vehicleId`, a defined `speed` and a `gps` whose
`lat`/`lng` parse finite is accepted, regardless of the remaining fields. -/
theorem c5_amended (p : Payload) (now : ℤ) :
    (dataHandler p now = Except.error DataError.missingFields ↔
      ¬ (truthyStr p.vehicleId = true ∧ p.speed.isSome = true ∧ p.gps.isSome = true)) ∧
    ((∃ r, dataHandler p now = Except.ok r) ↔
      (truthyStr p.vehicleId = true ∧ p.speed.isSome = true ∧
        ∃ la ln, p.gps = some { lat := NumVal.fin la, lng := NumVal.fin ln })) := by
  obtain ⟨vid, drv, sp, g, al, ts⟩ := p
  cases vid with
  | none => simp [dataHandler, truthyStr]
  | some v =>
    cases sp with
    | none => simp [dataHandler, truthyStr]
    | some s0 =>
      cases g with
      | none => simp [dataHandler, truthyStr]
      | some gg =>
        obtain ⟨glat, glng⟩ := gg
        by_cases hv : v = ""
        · subst hv
          simp [dataHandler, truthyStr]
        · cases glat <;> cases glng <;> simp [dataHandler, truthyStr, hv]

/-- Claim C6, counterexample: one record whose alert is the string `"true"`.
It is truthy by the §3 definition used for the latch, yet
`totalHistoricalAlerts` tests only `=== true || === "Sleeping"` and reports
0 where the claim requires 1. -/
theorem c6_counterexample :
    ¬ ((processFleetData
          [{ vehicleId := "V1", driver := dFull, speed := 10, gps := { lat := 1, lng := 2 },
             alert := AlertVal.strV "true", timestamp := 1000 }]).map
        (fun o => o.stats.map FleetStats.totalHistoricalAlerts)
      = some (some (List.countP (fun r : Record => isAlertTruthy r.alert)
          [{ vehicleId := "V1", driver := dFull, speed := 10, gps := { lat := 1, lng := 2 },
             alert := AlertVal.strV "true", timestamp := 1000 }]))) := by
  decide

/-- Claim C6, amended: `totalHistoricalAlerts` equals the count of records in
the whole input whose raw alert is the boolean `true` or the string
`"Sleeping"`; records whose alert is the string `"true"` are not counted,
although they are truthy for the latch. The count is independent of the
latch and of the internal sort order. -/
theorem c6_amended {l : List Record} {out : FleetOutput} {s : FleetStats}
    (h : processFleetData l = some out) (hs : out.stats = some s) :
    s.totalHistoricalAlerts = l.countP (fun r => isHistAlert r.alert) := by
  cases l with
  | nil =>
    rw [processFleetData, if_pos (by rfl)] at h
    injection h with h
    subst h
    exact absurd hs (by simp)
  | cons a t =>
    rw [processFleetData, if_neg (by simp)] at h
    simp only [processSorted] at h
    rcases Option.map_eq_some'.1 h with ⟨m, hm, hF⟩
    subst hF
    simp only [Option.some.injEq] at hs
    rw [← hs]
    show (List.filter _ (sortRecords (a :: t))).length = _
    rw [← List.countP_eq_length_filter]
    exact (List.perm_insertionSort tsLe (a :: t)).countP_eq _

/-- The single record of the C6 witness batch: alert `"Sleeping"`. -/
def c6wrec : Record :=
  { vehicleId := "V1", driver := dFull, speed := 5, gps := { lat := 1, lng := 2 },
    alert := AlertVal.strV "Sleeping", timestamp := 100 }

/-- The output the code computes for the C6 witness batch. -/
def c6wout : FleetOutput :=
  { stats := some
      { totalVehicles := 1, drowsinessCount := 1, avgSpeed := 5, totalHistoricalAlerts := 1 },
    uniqueVehicles :=
      [{ vehicleId := "V1", driver := dFull, speed := 5, gps := { lat := 1, lng := 2 },
         alert := AlertVal.strV "Sleeping", timestamp := 100, formattedTime := 100,
         isDrowsy := true, secondsSinceAlert := 0, driverPhone := "+880 1710000000" }],
    history := [{ time := 100, speed := 5, isAlert := 1 }] }

/-- Witness for the amended C6 at a concrete one-record batch. -/
theorem c6_witness :
    ({ totalVehicles := 1, drowsinessCount := 1, avgSpeed := 5,
       totalHistoricalAlerts := 1 } : FleetStats).totalHistoricalAlerts
      = List.countP (fun r : Record => isHistAlert r.alert) [c6wrec] :=
  @c6_amended [c6wrec] c6wout
    { totalVehicles := 1, drowsinessCount := 1, avgSpeed := 5, totalHistoricalAlerts := 1 }
    (by decide) (by decide)

/-- Claim C7 (confirmed): for a vehicle whose most recent record's raw alert
is not truthy and whose last truthy-alert time is `t`: at
`t = T_max - 299` the latch fires (299 < 300) and at `t ≤ T_max - 300` it
does not — the window comparison is strict less-than against 300 seconds. -/
theorem c7_strict_window {l : List Record} {out : FleetOutput} {st : VehicleState} {t : ℤ}
    (h : processFleetData l = some out) (hst : st ∈ out.uniqueVehicles)
    (hlatest : isAlertTruthy st.alert = false)
    (hla : lastAlertTimes (sortRecords l) st.vehicleId = some t) :
    (t = latestSystemTimestamp (sortRecords l) - 299 → st.isDrowsy = true) ∧
    (t ≤ latestSystemTimestamp (sortRecords l) - 300 → st.isDrowsy = false) := by
  obtain ⟨r, hr, hbs⟩ := mem_uniqueVehicles h hst
  obtain ⟨hvid, halert, _, hdrowsy⟩ := buildVehicleState_eq hbs
  rw [hvid] at hla
  rw [hla] at hdrowsy
  rw [← halert, hlatest] at hdrowsy
  simp only [Option.getD_some, Bool.false_or] at hdrowsy
  constructor
  · intro he
    rw [hdrowsy]
    exact decide_eq_true (by omega)
  · intro hle
    rw [hdrowsy]
    exact decide_eq_false (by omega)

/-- First record of the C7 witness batch: a truthy alert at time 1000. -/
def c7wrecA : Record :=
  { vehicleId := "V1", driver := dFull, speed := 10, gps := { lat := 1, lng := 2 },
    alert := AlertVal.boolV true, timestamp := 1000 }

/-- Second record of the C7 witness batch: no alert, at time 1299, so the
last truthy alert sits exactly at `T_max - 299`. -/
def c7wrecB : Record :=
  { vehicleId := "V1", driver := dFull, speed := 20, gps := { lat := 1, lng := 2 },
    alert := AlertVal.boolV false, timestamp := 1299 }

/-- The vehicle state the code computes for the C7 witness batch. -/
def c7wst : VehicleState :=
  { vehicleId := "V1", driver := dFull, speed := 20, gps := { lat := 1, lng := 2 },
    alert := AlertVal.boolV false, timestamp := 1299, formattedTime := 1299,
    isDrowsy := true, secondsSinceAlert := 299, driverPhone := "+880 1710000000" }

/-- The full output the code computes for the C7 witness batch. -/
def c7wout : FleetOutput :=
  { stats := some
      { totalVehicles := 1, drowsinessCount := 1, avgSpeed := 20, totalHistoricalAlerts := 1 },
    uniqueVehicles := [c7wst],
    history := [{ time := 1000, speed := 10, isAlert := 1 }, { time := 1299, speed := 20, isAlert := 0 }] }

/-- Witness for C7 at the boundary batch: last alert exactly 299 seconds
before `T_max`, latch fires. -/
theorem c7_witness : c7wst.isDrowsy = true :=
  (@c7_strict_window [c7wrecA, c7wrecB] c7wout c7wst 1000
    (by decide) (by decide) (by decide) (by decide)).1 (by decide)

/-- Claim C8, counterexample: for an empty record set the early return
produces the empty stats object — `avgSpeed` is absent (`undefined`), not 0;
the dashboard renders 0 only through `stats.avgSpeed || 0`. -/
theorem c8_counterexample :
    ¬ ((processFleetData []).map (fun o => o.stats.map FleetStats.avgSpeed)
        = some (some 0)) := by
  decide

/-- Claim C8, amended: whenever the output carries a stats object (every
nonempty input), the vehicle list is nonempty and `avgSpeed` is the
arithmetic mean of the distinct vehicles' latest speeds rounded to the
nearest integer; for an empty record set the stats object is empty and
`avgSpeed` is absent rather than 0 (see the counterexample). -/
theorem c8_amended {l : List Record} {out : FleetOutput} {s : FleetStats}
    (h : processFleetData l = some out) (hs : out.stats = some s) :
    0 < out.uniqueVehicles.length ∧
    s.avgSpeed = round ((((out.uniqueVehicles.map VehicleState.speed).sum : ℤ) : ℚ) /
      (out.uniqueVehicles.length : ℚ)) := by
  cases l with
  | nil =>
    rw [processFleetData, if_pos (by rfl)] at h
    injection h with h
    subst h
    exact absurd hs (by simp)
  | cons a t =>
    rw [processFleetData, if_neg (by simp)] at h
    simp only [processSorted] at h
    rcases Option.map_eq_some'.1 h with ⟨m, hm, hF⟩
    subst hF
    have hsne : sortRecords (a :: t) ≠ [] := by
      intro hnil
      have hlen := (List.perm_insertionSort tsLe (a :: t)).length_eq
      unfold sortRecords at hnil
      rw [hnil] at hlen
      simp at hlen
    have hmne : m ≠ [] := buildVehicleMap_ne_nil hsne hm
    have hpos : 0 < m.length := List.length_pos.2 hmne
    simp only [Option.some.injEq] at hs
    constructor
    · simpa using hpos
    · rw [← hs]
      show (if 0 < (m.map Prod.snd).length then
              toFixed0 ((m.map Prod.snd).map VehicleState.speed).sum (m.map Prod.snd).length
            else 0) = _
      rw [if_pos (by simpa using hpos)]
      exact toFixed0_eq_round _ _ (by simpa using hpos)

/-- First record of the C8 witness batch: speed 45. -/
def c8wrec1 : Record :=
  { vehicleId := "A", driver := dFull, speed := 45, gps := { lat := 1, lng := 2 },
    alert := AlertVal.absent, timestamp := 1000 }

/-- Second record of the C8 witness batch: speed 0. -/
def c8wrec2 : Record :=
  { vehicleId := "B", driver := dFull, speed := 0, gps := { lat := 1, lng := 2 },
    alert := AlertVal.absent, timestamp := 1001 }

/-- Third record of the C8 witness batch: speed 82. -/
def c8wrec3 : Record :=
  { vehicleId := "C", driver := dFull, speed := 82, gps := { lat := 1, lng := 2 },
    alert := AlertVal.absent, timestamp := 1002 }

/-- The full output the code computes for the C8 witness batch:
`avgSpeed = round(127/3) = 42`. -/
def c8wout : FleetOutput :=
  { stats := some
      { totalVehicles := 3, drowsinessCount := 0, avgSpeed := 42, totalHistoricalAlerts := 0 },
    uniqueVehicles :=
      [{ vehicleId := "A", driver := dFull, speed := 45, gps := { lat := 1, lng := 2 },
         alert := AlertVal.absent, timestamp := 1000, formattedTime := 1000,
         isDrowsy := false, secondsSinceAlert := 1002, driverPhone := "+880 1710000000" },
       { vehicleId := "B", driver := dFull, speed := 0, gps := { lat := 1, lng := 2 },
         alert := AlertVal.absent, timestamp := 1001, formattedTime := 1001,
         isDrowsy := false, secondsSinceAlert := 1002, driverPhone := "+880 1710000000" },
       { vehicleId := "C", driver := dFull, speed := 82, gps := { lat := 1, lng := 2 },
         alert := AlertVal.absent, timestamp := 1002, formattedTime := 1002,
         isDrowsy := false, secondsSinceAlert := 1002, driverPhone := "+880 1710000000" }],
    history := [{ time := 1000, speed := 45, isAlert := 0 },
                { time := 1001, speed := 0, isAlert := 0 },
                { time := 1002, speed := 82, isAlert := 0 }] }

/-- Witness for the amended C8 at the three-vehicle batch of the spec's fleet
stats scenario. -/
theorem c8_witness :
    0 < c8wout.uniqueVehicles.length ∧
    ({ totalVehicles := 3, drowsinessCount := 0, avgSpeed := 42,
       totalHistoricalAlerts := 0 } : FleetStats).avgSpeed
      = round ((((c8wout.uniqueVehicles.map VehicleState.speed).sum : ℤ) : ℚ) /
          (c8wout.uniqueVehicles.length : ℚ)) :=
  @c8_amended [c8wrec1, c8wrec2, c8wrec3] c8wout
    { totalVehicles := 3, drowsinessCount := 0, avgSpeed := 42, totalHistoricalAlerts := 0 }
    (by decide) (by decide)

/-- Claim C9 (confirmed): a submission whose command is absent or not in the
allow-list is rejected, so no record is built; and whenever a record is
stored it carries `status = "PENDING"` and the server-assigned timestamp —
the client-supplied `timestamp` field of the body is never read. -/
theorem c9_command_gate (body : SirenBody) (serverNow : ℤ) :
    (body.command = none → Except.isOk (sirenHandler body serverNow) = false) ∧
    (∀ c, body.command = some c → allowedCommands.contains c = false →
      Except.isOk (sirenHandler body serverNow) = false) ∧
    (∀ r, sirenHandler body serverNow = Except.ok r →
      r.status = "PENDING" ∧ r.timestamp = serverNow) := by
  obtain ⟨vid, cmd, drv, ts⟩ := body
  cases vid with
  | none =>
    cases cmd with
    | none =>
      exact ⟨fun _ => rfl, fun c hc => by simp at hc, fun r hr => by simp [sirenHandler] at hr⟩
    | some c0 =>
      exact ⟨fun h => by simp at h, fun c _ _ => rfl, fun r hr => by simp [sirenHandler] at hr⟩
  | some v =>
    cases cmd with
    | none =>
      exact ⟨fun _ => rfl, fun c hc => by simp at hc, fun r hr => by simp [sirenHandler] at hr⟩
    | some c0 =>
      refine ⟨fun h => by simp at h, ?_, ?_⟩
      · intro c hc hal
        have hcc : c0 = c := by simpa using hc
        subst hcc
        have hmem : c0 ∉ allowedCommands := by simpa using hal
        by_cases hv : v = ""
        · simp [sirenHandler, Except.isOk, Except.toBool, hv]
        · by_cases hc0 : c0 = ""
          · simp [sirenHandler, Except.isOk, Except.toBool, hv, hc0]
          · simp [sirenHandler, Except.isOk, Except.toBool, hv, hc0, hmem]
      · intro r hr
        by_cases hv : v = ""
        · simp [sirenHandler, hv] at hr
        · by_cases hc0 : c0 = ""
          · simp [sirenHandler, hv, hc0] at hr
          · by_cases hmem : c0 ∈ allowedCommands
            · simp [sirenHandler, hv, hc0, hmem] at hr
              subst hr
              exact ⟨rfl, rfl⟩
            · simp [sirenHandler, hv, hc0, hmem] at hr

/-- Witness for C9: `"HONK"` is rejected; the stored record of a
`"TRIGGER_ALARM"` submission has status `PENDING` and the server clock 777,
not the body's 123. -/
theorem c9_witness :
    Except.isOk (sirenHandler
      { vehicleId := some "BUS12", command := some "HONK", driver := none,
        timestamp := some 123 } 777) = false ∧
    ({ vehicleId := "BUS12", command := "TRIGGER_ALARM", driver := none, timestamp := 777,
       status := "PENDING" } : CommandRecord).status = "PENDING" ∧
    ({ vehicleId := "BUS12", command := "TRIGGER_ALARM", driver := none, timestamp := 777,
       status := "PENDING" } : CommandRecord).timestamp = 777 :=
  ⟨(c9_command_gate
      { vehicleId := some "BUS12", command := some "HONK", driver := none,
        timestamp := some 123 } 777).2.1 "HONK" rfl (by decide),
   (c9_command_gate
      { vehicleId := some "BUS12", command := some "TRIGGER_ALARM", driver := none,
        timestamp := some 123 } 777).2.2
      { vehicleId := "BUS12", command := "TRIGGER_ALARM", driver := none, timestamp := 777,
        status := "PENDING" } rfl⟩

/-- Claim C10 (confirmed): a present-but-falsy `timestamp` (the number 0,
`null`, or the empty string) is treated exactly like an absent one — the
handler behaves identically to the same payload with `timestamp` removed,
and any record it stores carries the ingestion time `now` instead. -/
theorem c10_falsy_timestamp {p : Payload} {now : ℤ}
    (hf : p.timestamp = TsVal.numV 0 ∨ p.timestamp = TsVal.nullV ∨
      p.timestamp = TsVal.strV "") :
    dataHandler p now = dataHandler { p with timestamp := TsVal.undef } now ∧
    (∀ r, dataHandler p now = Except.ok r → r.timestamp = TsVal.numV now) := by
  obtain ⟨vid, drv, sp, g, al, ts⟩ := p
  have htf : tsTruthy ts = false := by
    rcases hf with h | h | h <;> simp only at h <;> subst h <;> rfl
  have htu : tsTruthy TsVal.undef = false := rfl
  constructor
  · cases vid with
    | none => rfl
    | some v =>
      cases sp with
      | none => rfl
      | some s0 =>
        cases g with
        | none => rfl
        | some gg =>
          obtain ⟨glat, glng⟩ := gg
          by_cases hv : v = ""
          · simp [dataHandler, hv]
          · cases glat <;> cases glng <;> simp [dataHandler, hv, htf, htu]
  · intro r hr
    cases vid with
    | none => simp [dataHandler] at hr
    | some v =>
      cases sp with
      | none => simp [dataHandler] at hr
      | some s0 =>
        cases g with
        | none => simp [dataHandler] at hr
        | some gg =>
          obtain ⟨glat, glng⟩ := gg
          by_cases hv : v = ""
          · simp [dataHandler, hv] at hr
          · cases glat <;> cases glng <;> simp [dataHandler, hv, htf] at hr
            subst hr
            rfl

/-- The C10 witness payload: `timestamp` present but equal to the number 0. -/
def c10wp : Payload :=
  { vehicleId := some "V1", driver := dFull, speed := some 10,
    gps := some { lat := NumVal.fin 1, lng := NumVal.fin 2 },
    alert := AlertVal.absent, timestamp := TsVal.numV 0 }

/-- Witness for C10: the zero-timestamp payload is handled exactly like the
timestamp-less one, and the record stored at ingestion time 555 carries
timestamp 555, not 0. -/
theorem c10_witness :
    dataHandler c10wp 555 = dataHandler { c10wp with timestamp := TsVal.undef } 555 ∧
    ({ vehicleId := "V1", driver := dFull, speed := 10, gps := { lat := 1, lng := 2 },
       alert := AlertVal.absent, timestamp := TsVal.numV 555 } : StoredRecord).timestamp
      = TsVal.numV 555 :=
  ⟨(@c10_falsy_timestamp c10wp 555 (Or.inl rfl)).1,
   (@c10_falsy_timestamp c10wp 555 (Or.inl rfl)).2
     { vehicleId := "V1", driver := dFull, speed := 10, gps := { lat := 1, lng := 2 },
       alert := AlertVal.absent, timestamp := TsVal.numV 555 } rfl⟩

end FleetGuard
